import Mathlib

/-!
Verification development for the Blender_AI pipeline orchestration engine.

The Python source is shallowly embedded: pure decision procedures become Lean
functions, and the effectful pipeline (`SimulationOrchestrator.generate_simulation`)
becomes a deterministic function of an oracle environment that fixes the outcome
of every external stage invocation (planner, physics validator, code generator,
syntax validator, executor, quality validator, refinement agent).  Python floats
are modelled as rationals, exceptions as an explicit `Except`-style sum.
-/

namespace BlenderAI

/-- The `ErrorType` enum referenced by `src/utils/errors.py`.
Modelled from the spec: `src/models/schemas.py` is not present in the sources;
the members are exactly those used by `src/utils/errors.py`. -/
inductive ErrorType where
  | requirements_error
  | syntax_error
  | physics_error
  | logic_error
  | api_error
  | memory_error
  deriving DecidableEq, Repr

/-- Which exception class of `src/utils/errors.py` an error instance belongs to. -/
inductive ErrClass where
  | base
  | planning
  | validation
  | execution
  | quality
  | claudeAPI
  | resource
  | configuration
  | timeoutErr
  deriving DecidableEq, Repr

/-- A `BlenderAIError` value: the fields set by the constructors in
`src/utils/errors.py` (message, error_type, recoverable, suggested_action),
plus the class tag and the class-specific fields the claims mention. -/
structure BError where
  cls : ErrClass
  message : String
  error_type : Option ErrorType
  recoverable : Bool
  suggested_action : Option String
  validation_type : Option String
  timeout_seconds : Option Int
  deriving DecidableEq, Repr

/-- `PlanningError.__init__` from `src/utils/errors.py` lines 47-64:
error_type = REQUIREMENTS_ERROR, recoverable = True. -/
def PlanningError (message : String) : BError :=
  { cls := ErrClass.planning
    message := message
    error_type := some ErrorType.requirements_error
    recoverable := true
    suggested_action := some "Rephrase the simulation request with more specific details"
    validation_type := none
    timeout_seconds := none }

/-- `ValidationError.__init__` from `src/utils/errors.py` lines 67-97. -/
def ValidationError (message : String) (validation_type : String) : BError :=
  { cls := ErrClass.validation
    message := message
    error_type :=
      if validation_type = "syntax" then some ErrorType.syntax_error
      else if validation_type = "physics" then some ErrorType.physics_error
      else if validation_type = "quality" then some ErrorType.logic_error
      else some ErrorType.logic_error
    recoverable := true
    suggested_action := some ("Review " ++ validation_type ++ " validation errors and regenerate")
    validation_type := some validation_type
    timeout_seconds := none }

/-- `ExecutionError.__init__` from `src/utils/errors.py` lines 138-162:
error_type = API_ERROR, recoverable = True. -/
def ExecutionError (message : String) : BError :=
  { cls := ErrClass.execution
    message := message
    error_type := some ErrorType.api_error
    recoverable := true
    suggested_action := some "Check Blender installation and script compatibility"
    validation_type := none
    timeout_seconds := none }

/-- `TimeoutError.__init__` from `src/utils/errors.py` lines 262-281:
error_type = API_ERROR, recoverable = True, carries timeout_seconds and operation. -/
def TimeoutError (message : String) (timeout_seconds : Int) (operation : String) : BError :=
  { cls := ErrClass.timeoutErr
    message := message
    error_type := some ErrorType.api_error
    recoverable := true
    suggested_action := some ("Increase timeout or simplify " ++ operation)
    validation_type := none
    timeout_seconds := some timeout_seconds }

/-- A Python exception as seen by the orchestrator: either a `BlenderAIError`
(first except clause) or any other exception (second except clause). -/
inductive PyExc where
  | blenderAI (e : BError)
  | other (msg : String)
  deriving DecidableEq, Repr

/-- `ValidationResult` as used by `SyntaxValidatorAgent` and the orchestrator.
Modelled from the spec: `src/models/schemas.py` is not present in the sources;
fields are those read by the code (`is_valid`, `errors`, `warnings`). -/
structure ValidationResult where
  is_valid : Bool
  errors : List String
  warnings : List String
  deriving DecidableEq, Repr

/-- `ExecutionResult` as produced by `ExecutorAgent.execute`.
Modelled from the spec: `src/models/schemas.py` is not present in the sources;
fields are those constructed in `src/agents/executor.py` lines 144-151. -/
structure ExecutionResult where
  success : Bool
  blend_file_path : String
  stdout : String
  stderr : String
  execution_time_seconds : ℚ
  frame_count : ℕ
  deriving DecidableEq, Repr

/-- `QualityMetrics` as consumed by `RefinementAgent.should_refine`.
Modelled from the spec: `src/models/schemas.py` is not present in the sources;
fields are those read by `src/agents/refinement.py` lines 333-362. -/
structure QualityMetrics where
  quality_score : ℚ
  object_count_correct : Bool
  has_physics_setup : Bool
  has_camera : Bool
  has_lighting : Bool
  issues : List String
  deriving DecidableEq, Repr

/-- A simulation plan.  Modelled from the spec: `src/models/schemas.py` is not
present in the sources; the claims never inspect plan fields, so the payload is
kept opaque. -/
structure SimulationPlan where
  planId : ℕ
  deriving DecidableEq, Repr

/-- Generated Blender code.  Modelled from the spec: `src/models/schemas.py` is
not present in the sources; the claims never inspect code fields, so the
payload is kept opaque. -/
structure BlenderCode where
  codeId : ℕ
  deriving DecidableEq, Repr

/-- `SimulationResult` as constructed and mutated by
`SimulationOrchestrator.generate_simulation`.
Modelled from the spec: `src/models/schemas.py` is not present in the sources;
the fields and their initial values are those the orchestrator relies on
(`errors`, `warnings` start empty, `refinement_count` starts at 0,
`blend_file` and `quality_metrics` start unset), matching spec section 3's
PipelineResult description. -/
structure SimulationResult where
  success : Bool
  plan : Option SimulationPlan
  blend_file : Option String
  quality_metrics : Option QualityMetrics
  total_time_seconds : ℚ
  agent_times : List (String × ℚ)
  errors : List String
  warnings : List String
  refinement_count : ℕ
  deriving DecidableEq, Repr

/-- `RefinementAgent.should_refine` from `src/agents/refinement.py` lines 333-362. -/
def should_refine (quality_metrics : QualityMetrics) (threshold : ℚ) : Bool × String :=
  if threshold ≤ quality_metrics.quality_score then
    (false, "Quality already meets threshold")
  else if quality_metrics.has_physics_setup = false then
    (true, "Critical: Missing physics setup")
  else if quality_metrics.has_camera = false then
    (true, "Critical: Missing camera")
  else if quality_metrics.has_lighting = false then
    (true, "Important: Missing lighting")
  else if quality_metrics.object_count_correct = false then
    (true, "Important: Object count mismatch")
  else if quality_metrics.issues ≠ [] then
    (true, toString quality_metrics.issues.length ++ " issues found")
  else
    (true, "Quality below threshold")

/-! ## Executor model (`src/agents/executor.py`) -/

/-- Outcome of the Blender subprocess call in `ExecutorAgent._run_blender`:
either the process completed with captured output and a return code, or
`subprocess.TimeoutExpired` was raised, or the executable was missing
(`FileNotFoundError`), or some other exception escaped `Popen`/`communicate`. -/
inductive RunOutcome where
  | completed (stdout : String) (stderr : String) (returncode : Int)
  | timedOut
  | fileNotFound
  | otherExc (msg : String)
  deriving DecidableEq, Repr

/-- Oracle environment for one `ExecutorAgent.execute` invocation: what the
external world does at each effectful step — whether `tempfile.mkstemp`
succeeds (executor.py line 188, outside any try, so its `OSError` propagates
raw), whether the write inside `_write_temp_script`'s try succeeds (lines
190-198, wrapped into an `ExecutionError`), whether the pre-try debug-script
copy succeeds (line 97, outside the main try, so its `OSError` propagates
raw), the subprocess outcome, whether the output file exists afterwards, the
wall-clock elapsed time, and the frame count the regex of
`_extract_frame_count` would yield from stdout.  The `..Err` fields are the
`str(e)` of the corresponding failure. -/
structure ExecEnv where
  mkstempOk : Bool
  mkstempErr : String
  tempWriteOk : Bool
  tempWriteErr : String
  debugWriteOk : Bool
  debugWriteErr : String
  runOutcome : RunOutcome
  outputExists : Bool
  elapsed : ℚ
  extractedFrames : ℕ
  deriving DecidableEq, Repr

/-- Error surface of `_run_blender`: it either re-raises
`subprocess.TimeoutExpired` (after killing the process) or raises an
`ExecutionError` for a missing executable. -/
inductive BlenderRunErr where
  | timeoutExpired
  | raised (e : BError)
  deriving DecidableEq, Repr

/-- `ExecutorAgent._run_blender` from `src/agents/executor.py` lines 200-265.
The second component records whether `process.kill()` was invoked.
An exception other than `TimeoutExpired`/`FileNotFoundError` escaping
`Popen`/`communicate` propagates out of `_run_blender` and is wrapped by
`execute`'s `except Exception` into the "Unexpected error during execution"
`ExecutionError`; that wrap is folded in here. -/
def run_blender (blender_executable : String) (env : ExecEnv) :
    Except BlenderRunErr (String × String × Int) × Bool :=
  match env.runOutcome with
  | RunOutcome.completed out err rc => (Except.ok (out, err, rc), false)
  | RunOutcome.timedOut => (Except.error BlenderRunErr.timeoutExpired, true)
  | RunOutcome.fileNotFound =>
      (Except.error (BlenderRunErr.raised (ExecutionError
        ("Blender executable not found: " ++ blender_executable ++
         "\nInstall Blender and ensure it is in PATH, or set BLENDER_EXECUTABLE env var."))), false)
  | RunOutcome.otherExc m => (Except.error (BlenderRunErr.raised (ExecutionError
      ("Unexpected error during execution: " ++ m))), false)

/-- `ExecutorAgent._write_temp_script` from `src/agents/executor.py` lines
177-198: `tempfile.mkstemp` runs outside the try, so its failure propagates as
a raw (non-taxonomy) exception; a failure of the write inside the try is
wrapped into `ExecutionError("Failed to write temp script: " + str(e))`. -/
def write_temp_script (env : ExecEnv) : Except PyExc Unit :=
  if env.mkstempOk = false then
    Except.error (PyExc.other env.mkstempErr)
  else if env.tempWriteOk = false then
    Except.error (PyExc.blenderAI (ExecutionError
      ("Failed to write temp script: " ++ env.tempWriteErr)))
  else
    Except.ok ()

/-- `ExecutorAgent.execute` from `src/agents/executor.py` lines 63-175, with
`self.timeout = T`.  Returns the raised exception or the `ExecutionResult`,
together with the kill flag of the subprocess.  The temp-script creation (line
93) and the debug-script copy (line 97) run before the `try` block, so their
raw failures (`PyExc.other`) escape `execute` unwrapped; everything raised
inside the try surfaces as an `ExecutionError` or `TimeoutError`. -/
def executor_execute (T : Int) (blender_executable : String) (output_path : String)
    (env : ExecEnv) : Except PyExc ExecutionResult × Bool :=
  match write_temp_script env with
  | Except.error e => (Except.error e, false)
  | Except.ok _ =>
    if env.debugWriteOk = false then
      (Except.error (PyExc.other env.debugWriteErr), false)
    else
      match run_blender blender_executable env with
      | (Except.error BlenderRunErr.timeoutExpired, k) =>
          (Except.error (PyExc.blenderAI (TimeoutError
            ("Blender execution exceeded timeout of " ++ toString T ++ " seconds")
            T "blender_execution")), k)
      | (Except.error (BlenderRunErr.raised e), k) =>
          (Except.error (PyExc.blenderAI e), k)
      | (Except.ok (stdout, stderr, rc), k) =>
          if rc ≠ 0 then
            (Except.error (PyExc.blenderAI (ExecutionError
              ("Blender execution failed with exit code " ++ toString rc))), k)
          else if env.outputExists = false then
            (Except.error (PyExc.blenderAI (ExecutionError
              ("Blender completed but output file not found: " ++ output_path))), k)
          else
            (Except.ok
              { success := true
                blend_file_path := output_path
                stdout := stdout
                stderr := stderr
                execution_time_seconds := env.elapsed
                frame_count := env.extractedFrames }, k)

/-- The per-agent running statistics of `BaseAgent`
(`src/agents/base_agent.py` lines 42-45). -/
structure AgentStats where
  execution_count : ℕ
  total_time : ℚ
  error_count : ℕ
  deriving DecidableEq, Repr

/-- `BaseAgent.run` from `src/agents/base_agent.py` lines 59-99: wraps one
`execute` outcome, updating the statistics; on success it counts the execution
and its elapsed time, on a raised `BlenderAIError` it increments `error_count`
and re-raises, and on any other exception it increments `error_count` and
wraps the exception into a base `BlenderAIError` with message
`"<name> execution failed: " + str(e)` and `recoverable=False`. -/
def agent_run (name : String) (stats : AgentStats) (elapsed : ℚ)
    (out : Except PyExc α) : Except PyExc α × AgentStats :=
  match out with
  | Except.ok a =>
      (Except.ok a,
        { stats with
            execution_count := stats.execution_count + 1
            total_time := stats.total_time + elapsed })
  | Except.error (PyExc.blenderAI e) =>
      (Except.error (PyExc.blenderAI e),
        { stats with error_count := stats.error_count + 1 })
  | Except.error (PyExc.other m) =>
      (Except.error (PyExc.blenderAI
        { cls := ErrClass.base
          message := name ++ " execution failed: " ++ m
          error_type := none
          recoverable := false
          suggested_action := none
          validation_type := none
          timeout_seconds := none }),
        { stats with error_count := stats.error_count + 1 })

/-- The post-execution check of `SimulationOrchestrator.generate_simulation`,
`src/orchestrator/orchestrator.py` lines 244-248. -/
def postExecCheck (r : ExecutionResult) : Except PyExc ExecutionResult :=
  if r.success = false then
    Except.error (PyExc.blenderAI (ExecutionError "Blender execution failed"))
  else
    Except.ok r

/-! ## Orchestrator model (`src/orchestrator/orchestrator.py`) -/

/-- Oracle outcomes for one refinement-loop iteration: what each agent call
inside the `for` body of `generate_simulation` (lines 274-336) returns or
raises, plus the elapsed times of those invocations (never read by the code,
but part of the world the spec talks about). -/
structure IterEnv where
  refineOut : Except PyExc SimulationPlan
  codegenOut : Except PyExc BlenderCode
  synValOut : Except PyExc ValidationResult
  executeOut : Except PyExc ExecutionResult
  qualityOut : Except PyExc QualityMetrics
  codegenTime : ℚ
  synValTime : ℚ
  executeTime : ℚ
  qualityTime : ℚ

/-- Oracle environment for one `generate_simulation` run: outcome of every
main-pass agent invocation, the per-iteration oracles of the refinement loop,
and the `average_time` value each agent's `get_stats()` reports at the moment
the orchestrator records it into `agent_times` (for a fresh orchestrator this
is the elapsed time of that agent's single main-pass invocation). -/
structure RunEnv where
  plannerOut : Except PyExc SimulationPlan
  physicsOut : Except PyExc SimulationPlan
  codegenOut : Except PyExc BlenderCode
  synValOut : Except PyExc ValidationResult
  fixOut : Except PyExc (BlenderCode × ValidationResult)
  executeOut : Except PyExc ExecutionResult
  qualityOut : Except PyExc QualityMetrics
  iters : ℕ → IterEnv
  plannerTime : ℚ
  physicsTime : ℚ
  codegenTime : ℚ
  synValTime : ℚ
  executeTime : ℚ
  qualityTime : ℚ

/-- Observable event of one entered refinement iteration: the iteration was
accepted (with the reassessed metrics, the new blend path and the previous best
score), rejected on a non-improving score, or abandoned (failed validation,
failed execution, or a caught exception). -/
inductive RefEvent where
  | accept (q : QualityMetrics) (blend : String) (oldScore : ℚ)
  | reject (newScore : ℚ) (oldScore : ℚ)
  | fail
  deriving DecidableEq, Repr

/-- Full observable trace of one `generate_simulation` call: the returned
result, the fractional progress values passed to the callback in order, the
exception caught by the outer handlers (if any), the number of
`validate_and_fix` calls, the number of quality-validator invocations, and the
per-iteration refinement events. -/
structure RunTrace where
  result : SimulationResult
  progress : List ℚ
  exc : Option PyExc
  fixCalls : ℕ
  qualityCalls : ℕ
  events : List RefEvent
  deriving DecidableEq, Repr

/-- The two outer `except` clauses of `generate_simulation`
(lines 372-398): a `BlenderAIError` appends its message to `result.errors`
(plus a retry warning when auto-retry is enabled and the error is recoverable,
though no retry is actually performed); any other exception appends an
"Unexpected error" message.  Either way the partial result is returned. -/
def handleExc (ar : Bool) (result : SimulationResult) (e : PyExc) : SimulationResult :=
  match e with
  | PyExc.blenderAI err =>
      let r1 := { result with errors := result.errors ++ [err.message] }
      if ar = true ∧ err.recoverable = true then
        { r1 with warnings := r1.warnings ++ ["Retried due to: " ++ err.message] }
      else r1
  | PyExc.other m =>
      { result with errors := result.errors ++ ["Unexpected error: " ++ m] }

/-- Assemble the trace of a run that ended in a caught exception. -/
def failTrace (ar : Bool) (result : SimulationResult) (prog : List ℚ)
    (fc : ℕ) (qc : ℕ) (e : PyExc) : RunTrace :=
  { result := handleExc ar result e
    progress := prog
    exc := some e
    fixCalls := fc
    qualityCalls := qc
    events := [] }

/-- Mutable state of the refinement `for` loop: the result object being
mutated, the current best quality metrics (`quality_metrics` local), and the
accumulated observable trace pieces. -/
structure LoopState where
  result : SimulationResult
  qm : QualityMetrics
  progress : List ℚ
  qualityCalls : ℕ
  events : List RefEvent

/-- Outcome of the body of one refinement iteration (the `try` block of
`generate_simulation` lines 281-336, up to the accept/reject decision). -/
inductive IterOutcome where
  | abandonedWarn
  | abandonedSilent
  | rejected (newScore : ℚ)
  | accepted (rq : QualityMetrics) (blend : String)
  deriving DecidableEq, Repr

/-- The body of one refinement iteration, `src/orchestrator/orchestrator.py`
lines 281-331: refine the plan, regenerate, re-validate, re-execute, reassess.
A caught exception abandons the loop with a warning; an invalid refined
validation or an unsuccessful refined execution abandons it silently; otherwise
the reassessed score is compared strictly against the current best.  The second
component counts quality-validator invocations made by the body (0 or 1). -/
def iterBody (ie : IterEnv) (best : ℚ) : IterOutcome × ℕ :=
  match ie.refineOut with
  | Except.error _ => (IterOutcome.abandonedWarn, 0)
  | Except.ok _ =>
    match ie.codegenOut with
    | Except.error _ => (IterOutcome.abandonedWarn, 0)
    | Except.ok _ =>
      match ie.synValOut with
      | Except.error _ => (IterOutcome.abandonedWarn, 0)
      | Except.ok rv =>
        if rv.is_valid = false then (IterOutcome.abandonedSilent, 0)
        else
          match ie.executeOut with
          | Except.error _ => (IterOutcome.abandonedWarn, 0)
          | Except.ok rexec =>
            if rexec.success = false then (IterOutcome.abandonedSilent, 0)
            else
              match ie.qualityOut with
              | Except.error _ => (IterOutcome.abandonedWarn, 1)
              | Except.ok rq =>
                if best < rq.quality_score then
                  (IterOutcome.accepted rq rexec.blend_file_path, 1)
                else (IterOutcome.rejected rq.quality_score, 1)

/-- The refinement `for` loop of `generate_simulation`, lines 274-336.
`i` is the 1-based iteration index, `remaining` the number of iterations the
`range` still allows.  Each entered iteration reports progress 0.95 and runs
`iterBody`; on accept the result's blend file, quality metrics and
`refinement_count := i` are updated, and the loop stops early when the new
score reaches 0.9; any non-accepted iteration stops the loop. -/
def refineLoop (iters : ℕ → IterEnv) (i : ℕ) (remaining : ℕ) (st : LoopState) : LoopState :=
  match remaining with
  | 0 => st
  | r + 1 =>
    match iterBody (iters i) st.qm.quality_score with
    | (IterOutcome.abandonedWarn, qc) =>
        { st with
            result := { st.result with
              warnings := st.result.warnings ++
                ["Refinement attempt " ++ toString i ++ " failed"] }
            progress := st.progress ++ [(95 : ℚ)/100]
            qualityCalls := st.qualityCalls + qc
            events := st.events ++ [RefEvent.fail] }
    | (IterOutcome.abandonedSilent, qc) =>
        { st with
            progress := st.progress ++ [(95 : ℚ)/100]
            qualityCalls := st.qualityCalls + qc
            events := st.events ++ [RefEvent.fail] }
    | (IterOutcome.rejected ns, qc) =>
        { st with
            progress := st.progress ++ [(95 : ℚ)/100]
            qualityCalls := st.qualityCalls + qc
            events := st.events ++ [RefEvent.reject ns st.qm.quality_score] }
    | (IterOutcome.accepted rq blend, qc) =>
        let st3 : LoopState :=
          { st with
              result := { st.result with
                blend_file := some blend
                quality_metrics := some rq
                refinement_count := i }
              qm := rq
              progress := st.progress ++ [(95 : ℚ)/100]
              qualityCalls := st.qualityCalls + qc
              events := st.events ++ [RefEvent.accept rq blend st.qm.quality_score] }
        if (9 : ℚ)/10 ≤ rq.quality_score then st3
        else refineLoop iters (i + 1) r st3

/-- The `SimulationResult` constructed at the start of `generate_simulation`
(lines 179-185), before any stage runs. -/
def initResult : SimulationResult :=
  { success := false
    plan := none
    blend_file := none
    quality_metrics := none
    total_time_seconds := 0
    agent_times := []
    errors := []
    warnings := []
    refinement_count := 0 }

/-- Progress checkpoints reported before each stage (lines 189-256). -/
def prog1 : List ℚ := [(10 : ℚ)/100]

/-- Progress after the planning checkpoint. -/
def prog2 : List ℚ := prog1 ++ [(25 : ℚ)/100]

/-- Progress after the physics checkpoint. -/
def prog3 : List ℚ := prog2 ++ [(40 : ℚ)/100]

/-- Progress after the code-generation checkpoint. -/
def prog4 : List ℚ := prog3 ++ [(55 : ℚ)/100]

/-- Progress after the syntax-validation checkpoint. -/
def prog5 : List ℚ := prog4 ++ [(70 : ℚ)/100]

/-- Progress after the execution checkpoint. -/
def prog6 : List ℚ := prog5 ++ [(90 : ℚ)/100]

/-- Result state after the planning stage (lines 192-196). -/
def res1 (env : RunEnv) (plan : SimulationPlan) : SimulationResult :=
  { initResult with
      plan := some plan
      agent_times := initResult.agent_times ++ [("planner", env.plannerTime)] }

/-- Result state after the physics-validation stage (lines 202-206). -/
def res2 (env : RunEnv) (plan enriched : SimulationPlan) : SimulationResult :=
  { res1 env plan with
      plan := some enriched
      agent_times := (res1 env plan).agent_times ++ [("physics_validator", env.physicsTime)] }

/-- Result state after the code-generation stage (lines 212-215). -/
def res3 (env : RunEnv) (plan enriched : SimulationPlan) : SimulationResult :=
  { res2 env plan enriched with
      agent_times := (res2 env plan enriched).agent_times ++
        [("code_generator", env.codegenTime)] }

/-- Result state after the syntax-validation stage (lines 221-236). -/
def res4 (env : RunEnv) (plan enriched : SimulationPlan) : SimulationResult :=
  { res3 env plan enriched with
      agent_times := (res3 env plan enriched).agent_times ++
        [("syntax_validator", env.synValTime)] }

/-- Result state after the execution stage (lines 242-253). -/
def res5 (env : RunEnv) (plan enriched : SimulationPlan)
    (execution_result : ExecutionResult) : SimulationResult :=
  { res4 env plan enriched with
      blend_file := some execution_result.blend_file_path
      agent_times := (res4 env plan enriched).agent_times ++ [("executor", env.executeTime)] }

/-- Result state after the quality-validation stage (lines 259-263). -/
def res6 (env : RunEnv) (plan enriched : SimulationPlan)
    (execution_result : ExecutionResult) (qm : QualityMetrics) : SimulationResult :=
  { res5 env plan enriched execution_result with
      quality_metrics := some qm
      agent_times := (res5 env plan enriched execution_result).agent_times ++
        [("quality_validator", env.qualityTime)] }

/-- The loop state handed to the refinement loop after the main pass. -/
def mainLoopInit (env : RunEnv) (plan enriched : SimulationPlan)
    (execution_result : ExecutionResult) (qm : QualityMetrics) : LoopState :=
  { result := res6 env plan enriched execution_result qm
    qm := qm
    progress := prog6
    qualityCalls := 1
    events := [] }

/-- The single auto-fix pass for invalid syntax validation (lines 223-233):
when the first validation reports invalid, `validate_and_fix` is called exactly
once; a still-invalid fixed result raises a syntax `ValidationError`.  The
second component counts `validate_and_fix` invocations. -/
def fixStep (env : RunEnv) (validation : ValidationResult) : Except PyExc Unit × ℕ :=
  if validation.is_valid = false then
    match env.fixOut with
    | Except.error e => (Except.error e, 1)
    | Except.ok (_, v2) =>
      if v2.is_valid = false then
        (Except.error (PyExc.blenderAI (ValidationError
          ("Code validation failed: " ++ String.intercalate ", " v2.errors)
          "syntax")), 1)
      else (Except.ok (), 1)
  else (Except.ok (), 0)

/-- The successful final trace (lines 350-370): success is set, the final
progress value 1.0 is reported, and `total_time_seconds` is the sum of the
values recorded in `agent_times`. -/
def successTrace (st1 : LoopState) (fc : ℕ) : RunTrace :=
  { result := { st1.result with
      success := true
      total_time_seconds := (st1.result.agent_times.map Prod.snd).sum }
    progress := st1.progress ++ [1]
    exc := none
    fixCalls := fc
    qualityCalls := st1.qualityCalls
    events := st1.events }

/-- `SimulationOrchestrator.generate_simulation` from
`src/orchestrator/orchestrator.py` lines 137-398, as a function of the oracle
environment.  `ar` is `self.enable_auto_retry`, `er` is `enable_refinement`,
`N` is `max_refinement_iterations`.  The refinement loop runs only when
refinement is enabled, the score is below the 0.9 good-enough bound and
`should_refine` (threshold 0.8) asks for it (lines 266-271). -/
def generate_simulation (env : RunEnv) (ar : Bool) (er : Bool) (N : ℕ) : RunTrace :=
  match env.plannerOut with
  | Except.error e => failTrace ar initResult prog1 0 0 e
  | Except.ok plan =>
    match env.physicsOut with
    | Except.error e => failTrace ar (res1 env plan) prog2 0 0 e
    | Except.ok enriched =>
      match env.codegenOut with
      | Except.error e => failTrace ar (res2 env plan enriched) prog3 0 0 e
      | Except.ok _code =>
        match env.synValOut with
        | Except.error e => failTrace ar (res3 env plan enriched) prog4 0 0 e
        | Except.ok validation =>
          match fixStep env validation with
          | (Except.error e, fc) => failTrace ar (res3 env plan enriched) prog4 fc 0 e
          | (Except.ok _, fc) =>
            match env.executeOut with
            | Except.error e => failTrace ar (res4 env plan enriched) prog5 fc 0 e
            | Except.ok execution_result =>
              if execution_result.success = false then
                failTrace ar (res4 env plan enriched) prog5 fc 0
                  (PyExc.blenderAI (ExecutionError "Blender execution failed"))
              else
                match env.qualityOut with
                | Except.error e =>
                    failTrace ar (res5 env plan enriched execution_result) prog6 fc 1 e
                | Except.ok qm =>
                  let st1 : LoopState :=
                    if er = true ∧ qm.quality_score < (9 : ℚ)/10 then
                      if (should_refine qm ((8 : ℚ)/10)).1 = true then
                        refineLoop env.iters 1 N
                          (mainLoopInit env plan enriched execution_result qm)
                      else mainLoopInit env plan enriched execution_result qm
                    else mainLoopInit env plan enriched execution_result qm
                  successTrace st1 fc

/-- Whether a refinement event is an acceptance. -/
def isAccept : RefEvent → Bool
  | RefEvent.accept _ _ _ => true
  | RefEvent.reject _ _ => false
  | RefEvent.fail => false

/-- Number of accepted iterations recorded in an event list. -/
def acceptCount (es : List RefEvent) : ℕ := (es.filter isAccept).length

/-- An iteration is accepted only on strict score improvement. -/
theorem iterBody_accepted_lt (ie : IterEnv) (best : ℚ) (rq : QualityMetrics)
    (b : String) (qc : ℕ) (h : iterBody ie best = (IterOutcome.accepted rq b, qc)) :
    best < rq.quality_score := by
  unfold iterBody at h
  repeat' split at h
  all_goals simp_all

/-- An iteration is rejected only on a tie or regression of the score. -/
theorem iterBody_rejected_not_lt (ie : IterEnv) (best : ℚ) (ns : ℚ) (qc : ℕ)
    (h : iterBody ie best = (IterOutcome.rejected ns, qc)) : ¬ best < ns := by
  unfold iterBody at h
  repeat' split at h
  all_goals simp_all

/-- One iteration body invokes the quality validator at most once. -/
theorem iterBody_qc_le_one (ie : IterEnv) (best : ℚ) : (iterBody ie best).2 ≤ 1 := by
  unfold iterBody
  repeat' split
  all_goals simp

/-- Invariant of the refinement loop, proved once by induction on the range
fuel and consumed by the claim theorems: the loop appends one event per
entered iteration, accepts exactly on strict score improvement, stops at the
first non-accepted iteration and at a reassessed score of at least 0.9, sets
`refinement_count` to the index of the last accepted iteration, reports one
0.95 progress value per entered iteration, performs one quality reassessment
per entered iteration at most, and leaves success, errors and agent_times of
the result untouched. -/
theorem refineLoop_spec (iters : ℕ → IterEnv) :
    ∀ (r : ℕ) (i : ℕ) (st : LoopState), 1 ≤ i →
    ∃ E : List RefEvent,
      (refineLoop iters i r st).events = st.events ++ E
      ∧ E.length ≤ r
      ∧ (E = [] → refineLoop iters i r st = st)
      ∧ (∀ q b o, RefEvent.accept q b o ∈ E → o < q.quality_score)
      ∧ (∀ n o, RefEvent.reject n o ∈ E → ¬ o < n)
      ∧ (∀ j, j + 1 < E.length → ∃ q b o, E.get? j = some (RefEvent.accept q b o))
      ∧ ((refineLoop iters i r st).result.refinement_count =
          if acceptCount E = 0 then st.result.refinement_count else i - 1 + acceptCount E)
      ∧ (refineLoop iters i r st).qualityCalls ≤ st.qualityCalls + E.length
      ∧ (∀ j q b o, E.get? j = some (RefEvent.accept q b o) →
          (9:ℚ)/10 ≤ q.quality_score → j + 1 = E.length)
      ∧ (refineLoop iters i r st).progress = st.progress ++ List.replicate E.length ((95:ℚ)/100)
      ∧ (refineLoop iters i r st).result.success = st.result.success
      ∧ (refineLoop iters i r st).result.errors = st.result.errors
      ∧ (refineLoop iters i r st).result.agent_times = st.result.agent_times
      ∧ (∀ q b o, E.getLast? = some (RefEvent.accept q b o) →
          (refineLoop iters i r st).result.quality_metrics = some q ∧
          (refineLoop iters i r st).result.blend_file = some b) := by
  intro r
  induction r with
  | zero =>
    intro i st _
    refine ⟨[], ?_⟩
    simp [refineLoop, acceptCount]
  | succ r ih =>
    intro i st hi
    rcases hb : iterBody (iters i) st.qm.quality_score with ⟨out, qc⟩
    have hqc1 : qc ≤ 1 := by
      have h := iterBody_qc_le_one (iters i) st.qm.quality_score
      rw [hb] at h
      exact h
    cases out with
    | abandonedWarn =>
      have hstep : refineLoop iters i (r+1) st =
          { st with
              result := { st.result with
                warnings := st.result.warnings ++
                  ["Refinement attempt " ++ toString i ++ " failed"] }
              progress := st.progress ++ [(95 : ℚ)/100]
              qualityCalls := st.qualityCalls + qc
              events := st.events ++ [RefEvent.fail] } := by
        rw [refineLoop, hb]
      refine ⟨[RefEvent.fail], ?_, ?_, ?_, ?_, ?_, ?_, ?_, ?_, ?_, ?_, ?_, ?_, ?_, ?_⟩
      · rw [hstep]
      · simp only [List.length_singleton]
        omega
      · intro h
        simp at h
      · intro q b o hm
        simp at hm
      · intro n o hm
        simp at hm
      · intro j hj
        simp only [List.length_singleton] at hj
        omega
      · rw [hstep]
        simp [acceptCount, isAccept]
      · rw [hstep]
        simp only [List.length_singleton]
        omega
      · intro j q b o hj _
        cases j with
        | zero => simp at hj
        | succ j => simp at hj
      · rw [hstep]
        simp
      · rw [hstep]
      · rw [hstep]
      · rw [hstep]
      · intro q b o h
        simp at h
    | abandonedSilent =>
      have hstep : refineLoop iters i (r+1) st =
          { st with
              progress := st.progress ++ [(95 : ℚ)/100]
              qualityCalls := st.qualityCalls + qc
              events := st.events ++ [RefEvent.fail] } := by
        rw [refineLoop, hb]
      refine ⟨[RefEvent.fail], ?_, ?_, ?_, ?_, ?_, ?_, ?_, ?_, ?_, ?_, ?_, ?_, ?_, ?_⟩
      · rw [hstep]
      · simp only [List.length_singleton]
        omega
      · intro h
        simp at h
      · intro q b o hm
        simp at hm
      · intro n o hm
        simp at hm
      · intro j hj
        simp only [List.length_singleton] at hj
        omega
      · rw [hstep]
        simp [acceptCount, isAccept]
      · rw [hstep]
        simp only [List.length_singleton]
        omega
      · intro j q b o hj _
        cases j with
        | zero => simp at hj
        | succ j => simp at hj
      · rw [hstep]
        simp
      · rw [hstep]
      · rw [hstep]
      · rw [hstep]
      · intro q b o h
        simp at h
    | rejected ns =>
      have hns : ¬ st.qm.quality_score < ns :=
        iterBody_rejected_not_lt (iters i) st.qm.quality_score ns qc hb
      have hstep : refineLoop iters i (r+1) st =
          { st with
              progress := st.progress ++ [(95 : ℚ)/100]
              qualityCalls := st.qualityCalls + qc
              events := st.events ++ [RefEvent.reject ns st.qm.quality_score] } := by
        rw [refineLoop, hb]
      refine ⟨[RefEvent.reject ns st.qm.quality_score],
        ?_, ?_, ?_, ?_, ?_, ?_, ?_, ?_, ?_, ?_, ?_, ?_, ?_, ?_⟩
      · rw [hstep]
      · simp only [List.length_singleton]
        omega
      · intro h
        simp at h
      · intro q b o hm
        simp at hm
      · intro n o hm
        simp only [List.mem_singleton, RefEvent.reject.injEq] at hm
        obtain ⟨h1, h2⟩ := hm
        subst h1
        subst h2
        exact hns
      · intro j hj
        simp only [List.length_singleton] at hj
        omega
      · rw [hstep]
        simp [acceptCount, isAccept]
      · rw [hstep]
        simp only [List.length_singleton]
        omega
      · intro j q b o hj _
        cases j with
        | zero => simp at hj
        | succ j => simp at hj
      · rw [hstep]
        simp
      · rw [hstep]
      · rw [hstep]
      · rw [hstep]
      · intro q b o h
        simp at h
    | accepted rq blend =>
      have hlt : st.qm.quality_score < rq.quality_score :=
        iterBody_accepted_lt (iters i) st.qm.quality_score rq blend qc hb
      by_cases hgood : (9:ℚ)/10 ≤ rq.quality_score
      · have hstep : refineLoop iters i (r+1) st =
            { st with
                result := { st.result with
                  blend_file := some blend
                  quality_metrics := some rq
                  refinement_count := i }
                qm := rq
                progress := st.progress ++ [(95 : ℚ)/100]
                qualityCalls := st.qualityCalls + qc
                events := st.events ++ [RefEvent.accept rq blend st.qm.quality_score] } := by
          rw [refineLoop, hb]
          simp [hgood]
        refine ⟨[RefEvent.accept rq blend st.qm.quality_score],
          ?_, ?_, ?_, ?_, ?_, ?_, ?_, ?_, ?_, ?_, ?_, ?_, ?_, ?_⟩
        · rw [hstep]
        · simp only [List.length_singleton]
          omega
        · intro h
          simp at h
        · intro q b o hm
          simp only [List.mem_singleton, RefEvent.accept.injEq] at hm
          obtain ⟨h1, h2, h3⟩ := hm
          subst h1
          subst h3
          exact hlt
        · intro n o hm
          simp at hm
        · intro j hj
          simp only [List.length_singleton] at hj
          omega
        · rw [hstep]
          have hacc1 : acceptCount [RefEvent.accept rq blend st.qm.quality_score] = 1 := by
            simp [acceptCount, isAccept]
          rw [hacc1]
          have hne1 : ¬ (1 = 0) := by omega
          rw [if_neg hne1]
          show i = i - 1 + 1
          omega
        · rw [hstep]
          simp only [List.length_singleton]
          omega
        · intro j q b o hj _
          cases j with
          | zero => simp
          | succ j => simp at hj
        · rw [hstep]
          simp
        · rw [hstep]
        · rw [hstep]
        · rw [hstep]
        · intro q b o h
          simp only [List.getLast?_singleton, Option.some_inj] at h
          obtain ⟨h1, h2, h3⟩ := RefEvent.accept.inj h
          subst h1
          subst h2
          refine ⟨?_, ?_⟩ <;> rw [hstep]
      · set st3 : LoopState :=
          { st with
              result := { st.result with
                blend_file := some blend
                quality_metrics := some rq
                refinement_count := i }
              qm := rq
              progress := st.progress ++ [(95 : ℚ)/100]
              qualityCalls := st.qualityCalls + qc
              events := st.events ++ [RefEvent.accept rq blend st.qm.quality_score] }
          with hst3
        have hstep : refineLoop iters i (r+1) st = refineLoop iters (i+1) r st3 := by
          rw [refineLoop, hb]
          simp [hgood, hst3]
        obtain ⟨E', hev, hlen, hnil, hacc, hrej, hpre, hrc, hqcall, hstop,
          hprog, hsucc, herr, hat, hlast⟩ := ih (i+1) st3 (by omega)
        have hst3ev : st3.events = st.events ++ [RefEvent.accept rq blend st.qm.quality_score] := by
          rw [hst3]
        have hst3qc : st3.qualityCalls = st.qualityCalls + qc := by
          rw [hst3]
        have hst3prog : st3.progress = st.progress ++ [(95 : ℚ)/100] := by
          rw [hst3]
        refine ⟨RefEvent.accept rq blend st.qm.quality_score :: E',
          ?_, ?_, ?_, ?_, ?_, ?_, ?_, ?_, ?_, ?_, ?_, ?_, ?_, ?_⟩
        · rw [hstep, hev, hst3ev]
          simp
        · simp only [List.length_cons]
          omega
        · intro h
          exact absurd h (by simp)
        · intro q b o hm
          rcases List.mem_cons.mp hm with h | h
          · obtain ⟨h1, h2, h3⟩ := RefEvent.accept.inj h
            subst h1
            subst h3
            exact hlt
          · exact hacc q b o h
        · intro n o hm
          rcases List.mem_cons.mp hm with h | h
          · cases h
          · exact hrej n o h
        · intro j hj
          cases j with
          | zero => exact ⟨rq, blend, st.qm.quality_score, rfl⟩
          | succ j =>
            simp only [List.length_cons] at hj
            exact hpre j (by omega)
        · rw [hstep, hrc]
          have hacc1 : acceptCount (RefEvent.accept rq blend st.qm.quality_score :: E') =
              acceptCount E' + 1 := by
            simp [acceptCount, isAccept]
          rw [hacc1]
          have h3 : st3.result.refinement_count = i := by rw [hst3]
          rw [h3]
          have hne : ¬ (acceptCount E' + 1 = 0) := by omega
          rw [if_neg hne]
          by_cases hE0 : acceptCount E' = 0
          · rw [if_pos hE0, hE0]
            omega
          · rw [if_neg hE0]
            omega
        · rw [hstep]
          calc (refineLoop iters (i+1) r st3).qualityCalls
              ≤ st3.qualityCalls + E'.length := hqcall
            _ ≤ st.qualityCalls + (RefEvent.accept rq blend st.qm.quality_score :: E').length := by
                rw [hst3qc]
                simp only [List.length_cons]
                omega
        · intro j q b o hj hq
          cases j with
          | zero =>
            simp only [List.get?_cons_zero, Option.some_inj] at hj
            obtain ⟨h1, h2, h3⟩ := RefEvent.accept.inj hj.symm
            subst h1
            exact absurd hq hgood
          | succ j =>
            simp only [List.get?_cons_succ] at hj
            have hlenj := hstop j q b o hj hq
            simp only [List.length_cons]
            omega
        · rw [hstep, hprog, hst3prog]
          simp only [List.length_cons, List.replicate_succ]
          simp [List.append_assoc]
        · rw [hstep, hsucc, hst3]
        · rw [hstep, herr, hst3]
        · rw [hstep, hat, hst3]
        · intro q b o hlq
          rcases hE' : E' with _ | ⟨e0, Erest⟩
          · rw [hE'] at hlq hnil
            simp only [List.getLast?_singleton, Option.some_inj] at hlq
            obtain ⟨h1, h2, h3⟩ := RefEvent.accept.inj hlq
            subst h1
            subst h2
            rw [hstep, hnil rfl]
            constructor
            · rw [hst3]
            · rw [hst3]
          · have hlq2 : E'.getLast? = some (RefEvent.accept q b o) := by
              rw [hE']
              rw [hE'] at hlq
              exact hlq
            rw [hstep]
            exact hlast q b o hlq2

/-- The outer handler never changes the success flag. -/
theorem handleExc_success (ar : Bool) (res : SimulationResult) (e : PyExc) :
    (handleExc ar res e).success = res.success := by
  cases e with
  | blenderAI err =>
    simp only [handleExc]
    split <;> rfl
  | other m => rfl

/-- The outer handler never changes the refinement count. -/
theorem handleExc_rc (ar : Bool) (res : SimulationResult) (e : PyExc) :
    (handleExc ar res e).refinement_count = res.refinement_count := by
  cases e with
  | blenderAI err =>
    simp only [handleExc]
    split <;> rfl
  | other m => rfl

/-- The outer handler appends exactly the taxonomy error message to `errors`. -/
theorem handleExc_errors_blenderAI (ar : Bool) (res : SimulationResult) (err : BError) :
    (handleExc ar res (PyExc.blenderAI err)).errors = res.errors ++ [err.message] := by
  simp only [handleExc]
  split <;> rfl

/-- `fixStep` performs at most one `validate_and_fix` call. -/
theorem fixStep_snd_le_one (env : RunEnv) (v : ValidationResult) : (fixStep env v).2 ≤ 1 := by
  unfold fixStep
  repeat' split
  all_goals simp

/-- Case analysis of one `generate_simulation` run: either some stage raised
and the run ends in `failTrace` over a partial result with empty errors, zero
refinement count and a last progress value below 1, or the whole pipeline
succeeded and the run is a `successTrace` over either the plain main-pass
state or the state left by the refinement loop. -/
theorem gs_cases (env : RunEnv) (ar er : Bool) (N : ℕ) :
    (∃ res prog fc qc e,
        generate_simulation env ar er N = failTrace ar res prog fc qc e ∧
        res.success = false ∧ res.errors = [] ∧ res.refinement_count = 0 ∧
        prog ≠ [] ∧ (∀ x, prog.getLast? = some x → x < 1) ∧ fc ≤ 1 ∧ qc ≤ 1)
    ∨ (∃ plan enriched execution_result qm fc st1,
        (st1 = mainLoopInit env plan enriched execution_result qm ∨
         st1 = refineLoop env.iters 1 N (mainLoopInit env plan enriched execution_result qm)) ∧
        fc ≤ 1 ∧
        generate_simulation env ar er N = successTrace st1 fc) := by
  rcases hpl : env.plannerOut with e | plan
  · left
    refine ⟨initResult, prog1, 0, 0, e, ?_, rfl, rfl, rfl, ?_, ?_, ?_, ?_⟩
    · simp only [generate_simulation, hpl]
    · simp [prog1]
    · intro x hx
      simp [prog1] at hx
      subst hx
      norm_num
    · omega
    · omega
  · rcases hph : env.physicsOut with e | enriched
    · left
      refine ⟨res1 env plan, prog2, 0, 0, e, ?_, rfl, rfl, rfl, ?_, ?_, ?_, ?_⟩
      · simp only [generate_simulation, hpl, hph]
      · simp [prog2, prog1]
      · intro x hx
        simp [prog2, prog1] at hx
        subst hx
        norm_num
      · omega
      · omega
    · rcases hcg : env.codegenOut with e | code
      · left
        refine ⟨res2 env plan enriched, prog3, 0, 0, e, ?_, rfl, rfl, rfl, ?_, ?_, ?_, ?_⟩
        · simp only [generate_simulation, hpl, hph, hcg]
        · simp [prog3, prog2, prog1]
        · intro x hx
          simp [prog3, prog2, prog1] at hx
          subst hx
          norm_num
        · omega
        · omega
      · rcases hsv : env.synValOut with e | validation
        · left
          refine ⟨res3 env plan enriched, prog4, 0, 0, e, ?_, rfl, rfl, rfl, ?_, ?_, ?_, ?_⟩
          · simp only [generate_simulation, hpl, hph, hcg, hsv]
          · simp [prog4, prog3, prog2, prog1]
          · intro x hx
            simp [prog4, prog3, prog2, prog1] at hx
            subst hx
            norm_num
          · omega
          · omega
        · rcases hfx : fixStep env validation with ⟨fout, fc⟩
          have hfc : fc ≤ 1 := by
            have h := fixStep_snd_le_one env validation
            rw [hfx] at h
            exact h
          rcases fout with e | u
          · left
            refine ⟨res3 env plan enriched, prog4, fc, 0, e, ?_, rfl, rfl, rfl, ?_, ?_, hfc, ?_⟩
            · simp only [generate_simulation, hpl, hph, hcg, hsv, hfx]
            · simp [prog4, prog3, prog2, prog1]
            · intro x hx
              simp [prog4, prog3, prog2, prog1] at hx
              subst hx
              norm_num
            · omega
          · rcases hex : env.executeOut with e | execution_result
            · left
              refine ⟨res4 env plan enriched, prog5, fc, 0, e, ?_, rfl, rfl, rfl, ?_, ?_, hfc, ?_⟩
              · simp only [generate_simulation, hpl, hph, hcg, hsv, hfx, hex]
              · simp [prog5, prog4, prog3, prog2, prog1]
              · intro x hx
                simp [prog5, prog4, prog3, prog2, prog1] at hx
                subst hx
                norm_num
              · omega
            · rcases hexs : execution_result.success with _ | _
              · left
                refine ⟨res4 env plan enriched, prog5, fc, 0,
                  PyExc.blenderAI (ExecutionError "Blender execution failed"),
                  ?_, rfl, rfl, rfl, ?_, ?_, hfc, ?_⟩
                · simp only [generate_simulation, hpl, hph, hcg, hsv, hfx, hex]
                  rw [if_pos hexs]
                · simp [prog5, prog4, prog3, prog2, prog1]
                · intro x hx
                  simp [prog5, prog4, prog3, prog2, prog1] at hx
                  subst hx
                  norm_num
                · omega
              · rcases hq : env.qualityOut with e | qm
                · left
                  refine ⟨res5 env plan enriched execution_result, prog6, fc, 1, e,
                    ?_, rfl, rfl, rfl, ?_, ?_, hfc, ?_⟩
                  · simp only [generate_simulation, hpl, hph, hcg, hsv, hfx, hex, hq]
                    rw [if_neg (by rw [hexs]; exact fun h => by cases h)]
                  · simp [prog6, prog5, prog4, prog3, prog2, prog1]
                  · intro x hx
                    simp [prog6, prog5, prog4, prog3, prog2, prog1] at hx
                    subst hx
                    norm_num
                  · omega
                · right
                  have hgs : generate_simulation env ar er N =
                      successTrace
                        (if er = true ∧ qm.quality_score < (9 : ℚ)/10 then
                          if (should_refine qm ((8 : ℚ)/10)).1 = true then
                            refineLoop env.iters 1 N
                              (mainLoopInit env plan enriched execution_result qm)
                          else mainLoopInit env plan enriched execution_result qm
                        else mainLoopInit env plan enriched execution_result qm) fc := by
                    simp only [generate_simulation, hpl, hph, hcg, hsv, hfx, hex, hq]
                    rw [if_neg (by rw [hexs]; exact fun h => by cases h)]
                  refine ⟨plan, enriched, execution_result, qm, fc, ?_⟩
                  by_cases hA : er = true ∧ qm.quality_score < (9 : ℚ)/10
                  · by_cases hB : (should_refine qm ((8 : ℚ)/10)).1 = true
                    · exact ⟨_, Or.inr rfl, hfc, by rw [hgs, if_pos hA, if_pos hB]⟩
                    · exact ⟨_, Or.inl rfl, hfc, by rw [hgs, if_pos hA, if_neg hB]⟩
                  · exact ⟨_, Or.inl rfl, hfc, by rw [hgs, if_neg hA]⟩

/-- The tail of a successful progress trace is non-decreasing. -/
theorem chain_replicate_one (m : ℕ) :
    List.Chain' (· ≤ ·) (List.replicate m ((95:ℚ)/100) ++ [(1:ℚ)]) := by
  induction m with
  | zero => simp
  | succ m ih =>
    rw [List.replicate_succ, List.cons_append, List.chain'_cons']
    refine ⟨?_, ih⟩
    intro y hy
    rcases m with _ | m
    · simp at hy
      subst hy
      norm_num
    · rw [List.replicate_succ, List.cons_append, List.head?_cons, Option.mem_some_iff] at hy
      subst hy
      exact le_rfl

/-- The main-pass progress checkpoints are non-decreasing. -/
theorem chain_prog6 : List.Chain' (· ≤ ·) prog6 := by
  norm_num [prog6, prog5, prog4, prog3, prog2, prog1, List.chain'_cons]

/-- A successful run's whole progress trace is non-decreasing. -/
theorem chain_success_progress (m : ℕ) :
    List.Chain' (· ≤ ·) (prog6 ++ (List.replicate m ((95:ℚ)/100) ++ [(1:ℚ)])) := by
  rw [List.chain'_append]
  refine ⟨chain_prog6, chain_replicate_one m, ?_⟩
  intro x hx y hy
  have hx9 : x = (90:ℚ)/100 := by
    simp [prog6, prog5, prog4, prog3, prog2, prog1] at hx
    exact hx.symm
  subst hx9
  rcases m with _ | m
  · simp at hy
    subst hy
    norm_num
  · rw [List.replicate_succ, List.cons_append, List.head?_cons, Option.mem_some_iff] at hy
    subst hy
    norm_num

/-- Claim C1: in every run, a refinement iteration is accepted as the new
baseline (blend file, quality metrics, incremented iteration counter) if and
only if its reassessed quality score strictly exceeds the current best score;
a tie or regression is rejected and the loop stops immediately, so every
recorded iteration event except possibly the last is an acceptance, and the
final `refinement_count` equals the number of accepted iterations.  The last
conjunct shows acceptance really installs the iteration's artifact and metrics
as the new baseline. -/
theorem C1_refinement_acceptance (env : RunEnv) (ar er : Bool) (N : ℕ) :
    (∀ q b o, RefEvent.accept q b o ∈ (generate_simulation env ar er N).events →
        o < q.quality_score)
    ∧ (∀ n o, RefEvent.reject n o ∈ (generate_simulation env ar er N).events → ¬ o < n)
    ∧ (∀ j, j + 1 < (generate_simulation env ar er N).events.length →
        ∃ q b o, (generate_simulation env ar er N).events.get? j =
          some (RefEvent.accept q b o))
    ∧ (generate_simulation env ar er N).result.refinement_count =
        acceptCount (generate_simulation env ar er N).events
    ∧ (∀ q b o,
        (generate_simulation env ar er N).events.getLast? = some (RefEvent.accept q b o) →
        (generate_simulation env ar er N).result.quality_metrics = some q ∧
        (generate_simulation env ar er N).result.blend_file = some b) := by
  rcases gs_cases env ar er N with
    ⟨res, prog, fc, qc, e, heq, hsucc, herr, hrc0, hpne, hlast, hfc, hqc⟩ |
    ⟨plan, enriched, execution_result, qm, fc, st1, hst1, hfc, heq⟩
  · rw [heq]
    refine ⟨?_, ?_, ?_, ?_, ?_⟩
    · intro q b o hm
      simp [failTrace] at hm
    · intro n o hm
      simp [failTrace] at hm
    · intro j hj
      simp [failTrace] at hj
    · show (handleExc ar res e).refinement_count = _
      rw [handleExc_rc, hrc0]
      simp [failTrace, acceptCount]
    · intro q b o hm
      simp [failTrace] at hm
  · rcases hst1 with h1 | h1
    · rw [heq, h1]
      refine ⟨?_, ?_, ?_, ?_, ?_⟩
      · intro q b o hm
        simp [successTrace, mainLoopInit] at hm
      · intro n o hm
        simp [successTrace, mainLoopInit] at hm
      · intro j hj
        simp [successTrace, mainLoopInit] at hj
      · simp [successTrace, mainLoopInit, acceptCount, res6, res5, res4, res3, res2, res1,
          initResult]
      · intro q b o hm
        simp [successTrace, mainLoopInit] at hm
    · obtain ⟨E, hev, hlen, hnil, hacc, hrej, hpre, hrc, hqcall, hstop, hprog,
        hsuccp, herrp, hatp, hlastE⟩ :=
        refineLoop_spec env.iters N 1 (mainLoopInit env plan enriched execution_result qm)
          (by omega)
      have hev0 : (mainLoopInit env plan enriched execution_result qm).events = [] := rfl
      rw [hev0, List.nil_append] at hev
      rw [heq, h1]
      have hevS : (successTrace (refineLoop env.iters 1 N
          (mainLoopInit env plan enriched execution_result qm)) fc).events =
          (refineLoop env.iters 1 N
            (mainLoopInit env plan enriched execution_result qm)).events := rfl
      rw [hevS, hev]
      refine ⟨hacc, hrej, hpre, ?_, ?_⟩
      · show (refineLoop env.iters 1 N
            (mainLoopInit env plan enriched execution_result qm)).result.refinement_count = _
        rw [hrc]
        by_cases hE0 : acceptCount E = 0
        · rw [if_pos hE0, hE0]
          rfl
        · rw [if_neg hE0]
          omega
      · intro q b o hm
        exact hlastE q b o hm

/-- Claim C2: whenever the pipeline raises a taxonomy error (`BlenderAIError`),
`generate_simulation` catches it instead of propagating (the model is a total
function returning a trace), records exactly its message in the returned
result's errors list, and returns the result with `success = false`. -/
theorem C2_taxonomy_errors_caught (env : RunEnv) (ar er : Bool) (N : ℕ) (e : BError)
    (h : (generate_simulation env ar er N).exc = some (PyExc.blenderAI e)) :
    (generate_simulation env ar er N).result.success = false ∧
    (generate_simulation env ar er N).result.errors = [e.message] := by
  rcases gs_cases env ar er N with
    ⟨res, prog, fc, qc, e', heq, hsucc, herr, hrc0, hpne, hlast, hfc, hqc⟩ |
    ⟨plan, enriched, execution_result, qm, fc, st1, hst1, hfc, heq⟩
  · rw [heq] at h ⊢
    have he' : e' = PyExc.blenderAI e := by
      simp [failTrace] at h
      exact h
    subst he'
    constructor
    · show (handleExc ar res (PyExc.blenderAI e)).success = false
      rw [handleExc_success, hsucc]
    · show (handleExc ar res (PyExc.blenderAI e)).errors = [e.message]
      rw [handleExc_errors_blenderAI, herr]
      simp
  · rw [heq] at h
    simp [successTrace] at h

/-- Claim C4: with refinement enabled and `max_refinement_iterations = N`, the
loop enters at most `N` iterations (one event per entered iteration), the
quality validator is invoked at most `N + 1` times across the run, and an
accepted iteration whose reassessed score reaches the 0.9 good-enough bound is
always the last iteration entered. -/
theorem C4_refinement_bounded (env : RunEnv) (ar er : Bool) (N : ℕ) :
    (generate_simulation env ar er N).events.length ≤ N
    ∧ (generate_simulation env ar er N).qualityCalls ≤ N + 1
    ∧ (∀ j q b o,
        (generate_simulation env ar er N).events.get? j = some (RefEvent.accept q b o) →
        (9:ℚ)/10 ≤ q.quality_score →
        j + 1 = (generate_simulation env ar er N).events.length) := by
  rcases gs_cases env ar er N with
    ⟨res, prog, fc, qc, e, heq, hsucc, herr, hrc0, hpne, hlast, hfc, hqc⟩ |
    ⟨plan, enriched, execution_result, qm, fc, st1, hst1, hfc, heq⟩
  · rw [heq]
    refine ⟨?_, ?_, ?_⟩
    · simp [failTrace]
    · show qc ≤ N + 1
      omega
    · intro j q b o hj
      simp [failTrace] at hj
  · rcases hst1 with h1 | h1
    · rw [heq, h1]
      refine ⟨?_, ?_, ?_⟩
      · simp [successTrace, mainLoopInit]
      · show (mainLoopInit env plan enriched execution_result qm).qualityCalls ≤ N + 1
        show 1 ≤ N + 1
        omega
      · intro j q b o hj
        simp [successTrace, mainLoopInit] at hj
    · obtain ⟨E, hev, hlen, hnil, hacc, hrej, hpre, hrc, hqcall, hstop, hprog,
        hsuccp, herrp, hatp, hlastE⟩ :=
        refineLoop_spec env.iters N 1 (mainLoopInit env plan enriched execution_result qm)
          (by omega)
      have hev0 : (mainLoopInit env plan enriched execution_result qm).events = [] := rfl
      rw [hev0, List.nil_append] at hev
      rw [heq, h1]
      have hevS : (successTrace (refineLoop env.iters 1 N
          (mainLoopInit env plan enriched execution_result qm)) fc).events =
          (refineLoop env.iters 1 N
            (mainLoopInit env plan enriched execution_result qm)).events := rfl
      have hqcS : (successTrace (refineLoop env.iters 1 N
          (mainLoopInit env plan enriched execution_result qm)) fc).qualityCalls =
          (refineLoop env.iters 1 N
            (mainLoopInit env plan enriched execution_result qm)).qualityCalls := rfl
      refine ⟨?_, ?_, ?_⟩
      · rw [hevS, hev]
        exact hlen
      · rw [hqcS]
        have hq0 : (mainLoopInit env plan enriched execution_result qm).qualityCalls = 1 := rfl
        rw [hq0] at hqcall
        omega
      · intro j q b o hj hq
        rw [hevS, hev] at hj ⊢
        exact hstop j q b o hj hq

/-- The agent-times list recorded by a fully successful main pass. -/
def mainAgentTimes (env : RunEnv) : List (String × ℚ) :=
  [("planner", env.plannerTime), ("physics_validator", env.physicsTime),
   ("code_generator", env.codegenTime), ("syntax_validator", env.synValTime),
   ("executor", env.executeTime), ("quality_validator", env.qualityTime)]

/-- Amended claim C5: on every successful run, `total_time_seconds` is the sum
of the six per-agent `average_time` values recorded into `agent_times` during
the initial pass; an accepted refinement iteration never replaces those
recorded entries (the loop leaves `agent_times` untouched). -/
theorem C5_total_time_initial_pass (env : RunEnv) (ar er : Bool) (N : ℕ)
    (h : (generate_simulation env ar er N).result.success = true) :
    (generate_simulation env ar er N).result.agent_times = mainAgentTimes env ∧
    (generate_simulation env ar er N).result.total_time_seconds =
      env.plannerTime + env.physicsTime + env.codegenTime + env.synValTime +
      env.executeTime + env.qualityTime := by
  rcases gs_cases env ar er N with
    ⟨res, prog, fc, qc, e, heq, hsucc, herr, hrc0, hpne, hlast, hfc, hqc⟩ |
    ⟨plan, enriched, execution_result, qm, fc, st1, hst1, hfc, heq⟩
  · rw [heq] at h
    have : (handleExc ar res e).success = false := by rw [handleExc_success, hsucc]
    exact absurd h (by simp [failTrace, this])
  · have hat0 : (mainLoopInit env plan enriched execution_result qm).result.agent_times =
        mainAgentTimes env := by
      simp [mainLoopInit, res6, res5, res4, res3, res2, res1, initResult, mainAgentTimes]
    have hat1 : st1.result.agent_times = mainAgentTimes env := by
      rcases hst1 with h1 | h1
      · rw [h1, hat0]
      · obtain ⟨E, hev, hlen, hnil, hacc, hrej, hpre, hrc, hqcall, hstop, hprog,
          hsuccp, herrp, hatp, hlastE⟩ :=
          refineLoop_spec env.iters N 1 (mainLoopInit env plan enriched execution_result qm)
            (by omega)
        rw [h1, hatp, hat0]
    rw [heq]
    constructor
    · show st1.result.agent_times = mainAgentTimes env
      exact hat1
    · show (st1.result.agent_times.map Prod.snd).sum = _
      rw [hat1]
      simp [mainAgentTimes]
      ring

/-- Claim C6: with a progress callback supplied, the sequence of fractional
progress values reported during a successful run is non-decreasing, and the
final reported value is exactly 1.0 if and only if the returned result has
`success = true`. -/
theorem C6_progress_monotone (env : RunEnv) (ar er : Bool) (N : ℕ) :
    ((generate_simulation env ar er N).result.success = true →
      List.Chain' (· ≤ ·) (generate_simulation env ar er N).progress)
    ∧ ((generate_simulation env ar er N).progress.getLast? = some 1 ↔
        (generate_simulation env ar er N).result.success = true) := by
  rcases gs_cases env ar er N with
    ⟨res, prog, fc, qc, e, heq, hsucc, herr, hrc0, hpne, hlast, hfc, hqc⟩ |
    ⟨plan, enriched, execution_result, qm, fc, st1, hst1, hfc, heq⟩
  · rw [heq]
    have hs : (failTrace ar res prog fc qc e).result.success = false := by
      show (handleExc ar res e).success = false
      rw [handleExc_success, hsucc]
    constructor
    · intro h
      rw [hs] at h
      cases h
    · constructor
      · intro h
        have h1 : (1:ℚ) < 1 := hlast 1 h
        exact absurd h1 (by norm_num)
      · intro h
        rw [hs] at h
        cases h
  · have hprog1 : ∃ m, st1.progress = prog6 ++ List.replicate m ((95:ℚ)/100) := by
      rcases hst1 with h1 | h1
      · exact ⟨0, by rw [h1]; simp [mainLoopInit]⟩
      · obtain ⟨E, hev, hlen, hnil, hacc, hrej, hpre, hrc, hqcall, hstop, hprog,
          hsuccp, herrp, hatp, hlastE⟩ :=
          refineLoop_spec env.iters N 1 (mainLoopInit env plan enriched execution_result qm)
            (by omega)
        refine ⟨E.length, ?_⟩
        rw [h1, hprog]
        rfl
    obtain ⟨m, hm⟩ := hprog1
    rw [heq]
    have hsT : (successTrace st1 fc).result.success = true := rfl
    have hpT : (successTrace st1 fc).progress = st1.progress ++ [1] := rfl
    constructor
    · intro _
      rw [hpT, hm, List.append_assoc]
      exact chain_success_progress m
    · rw [hsT, hpT]
      constructor
      · intro _
        rfl
      · intro _
        rw [List.getLast?_concat]

/-- Claim C3: `should_refine` evaluates its seven ordered rules with first
match winning — (1) score meets threshold: no refinement; (2) missing physics
setup; (3) missing camera; (4) missing lighting; (5) object-count mismatch;
(6) issues present, reason stating the issue count; (7) otherwise below
threshold — and repeated calls on the same inputs return the same pair
(the model is a pure function; the final conjunct records this). -/
theorem C3_should_refine_first_match (m : QualityMetrics) (th : ℚ) :
    (th ≤ m.quality_score →
      should_refine m th = (false, "Quality already meets threshold"))
    ∧ (m.quality_score < th → m.has_physics_setup = false →
      should_refine m th = (true, "Critical: Missing physics setup"))
    ∧ (m.quality_score < th → m.has_physics_setup = true → m.has_camera = false →
      should_refine m th = (true, "Critical: Missing camera"))
    ∧ (m.quality_score < th → m.has_physics_setup = true → m.has_camera = true →
      m.has_lighting = false →
      should_refine m th = (true, "Important: Missing lighting"))
    ∧ (m.quality_score < th → m.has_physics_setup = true → m.has_camera = true →
      m.has_lighting = true → m.object_count_correct = false →
      should_refine m th = (true, "Important: Object count mismatch"))
    ∧ (m.quality_score < th → m.has_physics_setup = true → m.has_camera = true →
      m.has_lighting = true → m.object_count_correct = true → m.issues ≠ [] →
      should_refine m th = (true, toString m.issues.length ++ " issues found"))
    ∧ (m.quality_score < th → m.has_physics_setup = true → m.has_camera = true →
      m.has_lighting = true → m.object_count_correct = true → m.issues = [] →
      should_refine m th = (true, "Quality below threshold"))
    ∧ should_refine m th = should_refine m th := by
  refine ⟨?_, ?_, ?_, ?_, ?_, ?_, ?_, rfl⟩
  · intro h
    simp [should_refine, h]
  · intro h h1
    have hn := not_le.mpr h
    simp [should_refine, hn, h1]
  · intro h h1 h2
    have hn := not_le.mpr h
    simp [should_refine, hn, h1, h2]
  · intro h h1 h2 h3
    have hn := not_le.mpr h
    simp [should_refine, hn, h1, h2, h3]
  · intro h h1 h2 h3 h4
    have hn := not_le.mpr h
    simp [should_refine, hn, h1, h2, h3, h4]
  · intro h h1 h2 h3 h4 h5
    have hn := not_le.mpr h
    simp [should_refine, hn, h1, h2, h3, h4, h5]
  · intro h h1 h2 h3 h4 h5
    have hn := not_le.mpr h
    simp [should_refine, hn, h1, h2, h3, h4, h5]

/-- Claim C7: when the syntax-validation stage reports the generated code
invalid, the orchestrator performs exactly one `validate_and_fix` attempt; if
the fixed code validates the pipeline continues to the execution stage
(checkpoint 0.70 is reported), and if it is still invalid a syntax
`ValidationError` is raised and the run fails. -/
theorem C7_single_autofix (env : RunEnv) (ar er : Bool) (N : ℕ)
    (plan enriched : SimulationPlan) (code : BlenderCode) (validation : ValidationResult)
    (hpl : env.plannerOut = Except.ok plan)
    (hph : env.physicsOut = Except.ok enriched)
    (hcg : env.codegenOut = Except.ok code)
    (hsv : env.synValOut = Except.ok validation)
    (hinv : validation.is_valid = false) :
    (generate_simulation env ar er N).fixCalls = 1
    ∧ (∀ c2 v2, env.fixOut = Except.ok (c2, v2) → v2.is_valid = true →
        (70:ℚ)/100 ∈ (generate_simulation env ar er N).progress)
    ∧ (∀ c2 v2, env.fixOut = Except.ok (c2, v2) → v2.is_valid = false →
        (generate_simulation env ar er N).exc = some (PyExc.blenderAI (ValidationError
          ("Code validation failed: " ++ String.intercalate ", " v2.errors) "syntax"))
        ∧ (generate_simulation env ar er N).result.success = false) := by
  rcases hfo : env.fixOut with e | ⟨c2, v2⟩
  · have hfx : fixStep env validation = (Except.error e, 1) := by
      simp [fixStep, hinv, hfo]
    have heq : generate_simulation env ar er N =
        failTrace ar (res3 env plan enriched) prog4 1 0 e := by
      simp only [generate_simulation, hpl, hph, hcg, hsv, hfx]
    refine ⟨by rw [heq]; rfl, ?_, ?_⟩
    · intro c2' v2' hok _
      simp at hok
    · intro c2' v2' hok _
      simp at hok
  · rcases hvv : v2.is_valid with _ | _
    · have hfx : fixStep env validation =
          (Except.error (PyExc.blenderAI (ValidationError
            ("Code validation failed: " ++ String.intercalate ", " v2.errors) "syntax")), 1) := by
        simp [fixStep, hinv, hfo, hvv]
      have heq : generate_simulation env ar er N =
          failTrace ar (res3 env plan enriched) prog4 1 0
            (PyExc.blenderAI (ValidationError
              ("Code validation failed: " ++ String.intercalate ", " v2.errors) "syntax")) := by
        simp only [generate_simulation, hpl, hph, hcg, hsv, hfx]
      refine ⟨by rw [heq]; rfl, ?_, ?_⟩
      · intro c2' v2' hok hval
        simp only [Except.ok.injEq, Prod.mk.injEq] at hok
        obtain ⟨h1, h2⟩ := hok
        rw [← h2] at hval
        rw [hvv] at hval
        cases hval
      · intro c2' v2' hok hval
        simp only [Except.ok.injEq, Prod.mk.injEq] at hok
        obtain ⟨h1, h2⟩ := hok
        subst h2
        constructor
        · rw [heq]
          rfl
        · rw [heq]
          show (handleExc ar (res3 env plan enriched) _).success = false
          rw [handleExc_success]
          rfl
    · have hfx : fixStep env validation = (Except.ok (), 1) := by
        simp [fixStep, hinv, hfo, hvv]
      have hcontr : ∀ v2' : ValidationResult, v2 = v2' → v2'.is_valid = false → False := by
        intro v2' hok hval
        rw [← hok] at hval
        rw [hvv] at hval
        cases hval
      rcases hex : env.executeOut with e | execution_result
      · have heq : generate_simulation env ar er N =
            failTrace ar (res4 env plan enriched) prog5 1 0 e := by
          simp only [generate_simulation, hpl, hph, hcg, hsv, hfx, hex]
        refine ⟨by rw [heq]; rfl, ?_, ?_⟩
        · intro c2' v2' _ _
          rw [heq]
          show (70:ℚ)/100 ∈ prog5
          simp [prog5, prog4, prog3, prog2, prog1]
        · intro c2' v2' hok hval
          simp only [Except.ok.injEq, Prod.mk.injEq] at hok
          exact (hcontr v2' hok.2 hval).elim
      · rcases hexs : execution_result.success with _ | _
        · have heq : generate_simulation env ar er N =
              failTrace ar (res4 env plan enriched) prog5 1 0
                (PyExc.blenderAI (ExecutionError "Blender execution failed")) := by
            simp only [generate_simulation, hpl, hph, hcg, hsv, hfx, hex]
            rw [if_pos hexs]
          refine ⟨by rw [heq]; rfl, ?_, ?_⟩
          · intro c2' v2' _ _
            rw [heq]
            show (70:ℚ)/100 ∈ prog5
            simp [prog5, prog4, prog3, prog2, prog1]
          · intro c2' v2' hok hval
            simp only [Except.ok.injEq, Prod.mk.injEq] at hok
            exact (hcontr v2' hok.2 hval).elim
        · rcases hq : env.qualityOut with e | qm
          · have heq : generate_simulation env ar er N =
                failTrace ar (res5 env plan enriched execution_result) prog6 1 1 e := by
              simp only [generate_simulation, hpl, hph, hcg, hsv, hfx, hex, hq]
              rw [if_neg (by rw [hexs]; exact fun h => by cases h)]
            refine ⟨by rw [heq]; rfl, ?_, ?_⟩
            · intro c2' v2' _ _
              rw [heq]
              show (70:ℚ)/100 ∈ prog6
              simp [prog6, prog5, prog4, prog3, prog2, prog1]
            · intro c2' v2' hok hval
              simp only [Except.ok.injEq, Prod.mk.injEq] at hok
              exact (hcontr v2' hok.2 hval).elim
          · have hgs : generate_simulation env ar er N =
                successTrace
                  (if er = true ∧ qm.quality_score < (9 : ℚ)/10 then
                    if (should_refine qm ((8 : ℚ)/10)).1 = true then
                      refineLoop env.iters 1 N
                        (mainLoopInit env plan enriched execution_result qm)
                    else mainLoopInit env plan enriched execution_result qm
                  else mainLoopInit env plan enriched execution_result qm) 1 := by
              simp only [generate_simulation, hpl, hph, hcg, hsv, hfx, hex, hq]
              rw [if_neg (by rw [hexs]; exact fun h => by cases h)]
            have hmem : ∀ st1 : LoopState,
                (st1 = mainLoopInit env plan enriched execution_result qm ∨
                  st1 = refineLoop env.iters 1 N
                    (mainLoopInit env plan enriched execution_result qm)) →
                (70:ℚ)/100 ∈ (successTrace st1 1).progress := by
              intro st1 hst1
              have hpr : ∃ m', st1.progress = prog6 ++ List.replicate m' ((95:ℚ)/100) := by
                rcases hst1 with h1 | h1
                · exact ⟨0, by rw [h1]; simp [mainLoopInit]⟩
                · obtain ⟨E, hev, hlen, hnil, hacc, hrej, hpre, hrc, hqcall, hstop, hprog,
                    hsuccp, herrp, hatp, hlastE⟩ :=
                    refineLoop_spec env.iters N 1
                      (mainLoopInit env plan enriched execution_result qm) (by omega)
                  exact ⟨E.length, by rw [h1, hprog]; rfl⟩
              obtain ⟨m', hm'⟩ := hpr
              show (70:ℚ)/100 ∈ st1.progress ++ [1]
              rw [hm']
              apply List.mem_append_left
              apply List.mem_append_left
              simp [prog6, prog5, prog4, prog3, prog2, prog1]
            refine ⟨by rw [hgs]; rfl, ?_, ?_⟩
            · intro c2' v2' _ _
              rw [hgs]
              by_cases hA : er = true ∧ qm.quality_score < (9 : ℚ)/10
              · by_cases hB : (should_refine qm ((8 : ℚ)/10)).1 = true
                · rw [if_pos hA, if_pos hB]
                  exact hmem _ (Or.inr rfl)
                · rw [if_pos hA, if_neg hB]
                  exact hmem _ (Or.inl rfl)
              · rw [if_neg hA]
                exact hmem _ (Or.inl rfl)
            · intro c2' v2' hok hval
              simp only [Except.ok.injEq, Prod.mk.injEq] at hok
              exact (hcontr v2' hok.2 hval).elim

/-- Claim C8: when the Blender subprocess exceeds the configured timeout of
`T` seconds (the temp-script and debug-script writes having succeeded, which
the scenario presupposes), the subprocess is killed, a `TimeoutError` with
`timeout_seconds = T` crosses the stage boundary, and the `BaseAgent.run`
wrapper still increments the agent's `error_count` by one. -/
theorem C8_timeout_raises_and_counts (T : Int) (exe path : String) (env : ExecEnv)
    (st : AgentStats) (el : ℚ)
    (hmk : env.mkstempOk = true) (hw : env.tempWriteOk = true)
    (hdb : env.debugWriteOk = true) (ht : env.runOutcome = RunOutcome.timedOut) :
    (executor_execute T exe path env).2 = true
    ∧ (executor_execute T exe path env).1 = Except.error (PyExc.blenderAI (TimeoutError
        ("Blender execution exceeded timeout of " ++ toString T ++ " seconds")
        T "blender_execution"))
    ∧ (∀ e, (executor_execute T exe path env).1 = Except.error (PyExc.blenderAI e) →
        e.timeout_seconds = some T ∧ e.cls = ErrClass.timeoutErr)
    ∧ (agent_run "ExecutorAgent" st el (executor_execute T exe path env).1).2.error_count =
        st.error_count + 1 := by
  have hee : executor_execute T exe path env =
      (Except.error (PyExc.blenderAI (TimeoutError
        ("Blender execution exceeded timeout of " ++ toString T ++ " seconds")
        T "blender_execution")), true) := by
    simp [executor_execute, write_temp_script, run_blender, hmk, hw, hdb, ht]
  refine ⟨by rw [hee], by rw [hee], ?_, ?_⟩
  · intro e he
    rw [hee] at he
    simp only [Except.error.injEq, PyExc.blenderAI.injEq] at he
    subst he
    exact ⟨rfl, rfl⟩
  · rw [hee]
    simp [agent_run]

/-- Amended claim C10: `ExecutorAgent.execute` either returns an
`ExecutionResult` with `success = true` (after verifying the output file
exists), raises an `ExecutionError` or `TimeoutError`, or propagates a raw
(non-taxonomy) exception from one of the two filesystem writes that run
before its `try` block — `tempfile.mkstemp` (executor.py line 188) or the
debug-script copy (line 97).  It never returns `success = false`, so the
orchestrator's post-execution `if not execution_result.success` check never
fires (composing it with the executor is the identity — the `ExecutionError`
it would raise there is dead code). -/
theorem C10_executor_never_fails_silently (T : Int) (exe path : String) (env : ExecEnv) :
    (∀ r, (executor_execute T exe path env).1 = Except.ok r → r.success = true)
    ∧ (∀ e, (executor_execute T exe path env).1 = Except.error (PyExc.blenderAI e) →
        e.cls = ErrClass.execution ∨ e.cls = ErrClass.timeoutErr)
    ∧ (∀ m, (executor_execute T exe path env).1 = Except.error (PyExc.other m) →
        (env.mkstempOk = false ∧ m = env.mkstempErr) ∨
        (env.debugWriteOk = false ∧ m = env.debugWriteErr))
    ∧ (executor_execute T exe path env).1.bind postExecCheck =
        (executor_execute T exe path env).1 := by
  have errB : ∀ (E : BError) (k : Bool),
      executor_execute T exe path env = (Except.error (PyExc.blenderAI E), k) →
      (E.cls = ErrClass.execution ∨ E.cls = ErrClass.timeoutErr) →
      (∀ r, (executor_execute T exe path env).1 = Except.ok r → r.success = true)
      ∧ (∀ e, (executor_execute T exe path env).1 = Except.error (PyExc.blenderAI e) →
          e.cls = ErrClass.execution ∨ e.cls = ErrClass.timeoutErr)
      ∧ (∀ m, (executor_execute T exe path env).1 = Except.error (PyExc.other m) →
          (env.mkstempOk = false ∧ m = env.mkstempErr) ∨
          (env.debugWriteOk = false ∧ m = env.debugWriteErr))
      ∧ (executor_execute T exe path env).1.bind postExecCheck =
          (executor_execute T exe path env).1 := by
    intro E k hee hcls
    refine ⟨?_, ?_, ?_, ?_⟩
    · intro r hr
      rw [hee] at hr
      simp at hr
    · intro e he
      rw [hee] at he
      simp only [Except.error.injEq, PyExc.blenderAI.injEq] at he
      rw [← he]
      exact hcls
    · intro m hm
      rw [hee] at hm
      simp at hm
    · rw [hee]
      rfl
  have errO : ∀ (m0 : String) (k : Bool),
      executor_execute T exe path env = (Except.error (PyExc.other m0), k) →
      ((env.mkstempOk = false ∧ m0 = env.mkstempErr) ∨
        (env.debugWriteOk = false ∧ m0 = env.debugWriteErr)) →
      (∀ r, (executor_execute T exe path env).1 = Except.ok r → r.success = true)
      ∧ (∀ e, (executor_execute T exe path env).1 = Except.error (PyExc.blenderAI e) →
          e.cls = ErrClass.execution ∨ e.cls = ErrClass.timeoutErr)
      ∧ (∀ m, (executor_execute T exe path env).1 = Except.error (PyExc.other m) →
          (env.mkstempOk = false ∧ m = env.mkstempErr) ∨
          (env.debugWriteOk = false ∧ m = env.debugWriteErr))
      ∧ (executor_execute T exe path env).1.bind postExecCheck =
          (executor_execute T exe path env).1 := by
    intro m0 k hee hsrc
    refine ⟨?_, ?_, ?_, ?_⟩
    · intro r hr
      rw [hee] at hr
      simp at hr
    · intro e he
      rw [hee] at he
      simp at he
    · intro m hm
      rw [hee] at hm
      simp only [Except.error.injEq, PyExc.other.injEq] at hm
      rw [← hm]
      exact hsrc
    · rw [hee]
      rfl
  by_cases hmk : env.mkstempOk = false
  · exact errO env.mkstempErr false
      (by simp [executor_execute, write_temp_script, hmk]) (Or.inl ⟨hmk, rfl⟩)
  · have hmk' : env.mkstempOk = true := by
      revert hmk
      cases env.mkstempOk <;> simp
    by_cases hw : env.tempWriteOk = false
    · exact errB (ExecutionError ("Failed to write temp script: " ++ env.tempWriteErr)) false
        (by simp [executor_execute, write_temp_script, hmk', hw]) (Or.inl rfl)
    · have hw' : env.tempWriteOk = true := by
        revert hw
        cases env.tempWriteOk <;> simp
      by_cases hdb : env.debugWriteOk = false
      · exact errO env.debugWriteErr false
          (by simp [executor_execute, write_temp_script, hmk', hw', hdb]) (Or.inr ⟨hdb, rfl⟩)
      · have hdb' : env.debugWriteOk = true := by
          revert hdb
          cases env.debugWriteOk <;> simp
        rcases hro : env.runOutcome with ⟨so, se, rc⟩ | _ | _ | m
        · have hrb : run_blender exe env = (Except.ok (so, se, rc), false) := by
            simp [run_blender, hro]
          by_cases hrc : rc = 0
          · by_cases hoe : env.outputExists = false
            · exact errB
                (ExecutionError ("Blender completed but output file not found: " ++ path)) false
                (by simp [executor_execute, write_temp_script, hmk', hw', hdb', hrb, hrc, hoe])
                (Or.inl rfl)
            · have hoe' : env.outputExists = true := by
                revert hoe
                cases env.outputExists <;> simp
              subst hrc
              have hee : executor_execute T exe path env =
                  (Except.ok
                    { success := true
                      blend_file_path := path
                      stdout := so
                      stderr := se
                      execution_time_seconds := env.elapsed
                      frame_count := env.extractedFrames }, false) := by
                simp [executor_execute, write_temp_script, hmk', hw', hdb', hrb, hoe']
              refine ⟨?_, ?_, ?_, ?_⟩
              · intro r hr
                rw [hee] at hr
                simp only [Except.ok.injEq] at hr
                rw [← hr]
              · intro e he
                rw [hee] at he
                simp at he
              · intro m hm
                rw [hee] at hm
                simp at hm
              · rw [hee]
                show Except.bind _ _ = _
                simp [Except.bind, postExecCheck]
          · exact errB
              (ExecutionError ("Blender execution failed with exit code " ++ toString rc)) false
              (by simp [executor_execute, write_temp_script, hmk', hw', hdb', hrb, hrc])
              (Or.inl rfl)
        · have hrb : run_blender exe env = (Except.error BlenderRunErr.timeoutExpired, true) := by
            simp [run_blender, hro]
          exact errB
            (TimeoutError ("Blender execution exceeded timeout of " ++ toString T ++ " seconds")
              T "blender_execution") true
            (by simp [executor_execute, write_temp_script, hmk', hw', hdb', hrb]) (Or.inr rfl)
        · have hrb : run_blender exe env =
              (Except.error (BlenderRunErr.raised (ExecutionError
                ("Blender executable not found: " ++ exe ++
                 "\nInstall Blender and ensure it is in PATH, or set BLENDER_EXECUTABLE env var."))),
               false) := by
            simp [run_blender, hro]
          exact errB
            (ExecutionError ("Blender executable not found: " ++ exe ++
              "\nInstall Blender and ensure it is in PATH, or set BLENDER_EXECUTABLE env var."))
            false (by simp [executor_execute, write_temp_script, hmk', hw', hdb', hrb])
            (Or.inl rfl)
        · have hrb : run_blender exe env =
              (Except.error (BlenderRunErr.raised (ExecutionError
                ("Unexpected error during execution: " ++ m))), false) := by
            simp [run_blender, hro]
          exact errB (ExecutionError ("Unexpected error during execution: " ++ m)) false
            (by simp [executor_execute, write_temp_script, hmk', hw', hdb', hrb]) (Or.inl rfl)

/-- Counterexample to claim C9 as stated: `PlanningError`, the
RequirementsError-category planning failure, carries `recoverable = True` in
`src/utils/errors.py` lines 58-63, not `recoverable = false`. -/
theorem C9_counterexample :
    (PlanningError "Failed to parse simulation request").error_type =
      some ErrorType.requirements_error
    ∧ (PlanningError "Failed to parse simulation request").recoverable = true := by
  exact ⟨rfl, rfl⟩

/-- Amended claim C9: a `PlanningError` carries `recoverable = true` (so with
auto-retry enabled the orchestrator records a "Retried due to" warning), but
no retry is ever performed (the retry body is unimplemented): a run whose
planner raises a `PlanningError` always returns a non-success result with the
error message recorded, no further stage invoked (progress stops at the first
checkpoint, no fix or quality calls, no refinement events). -/
theorem C9_planning_error_terminates (env : RunEnv) (ar er : Bool) (N : ℕ) (msg : String)
    (h : env.plannerOut = Except.error (PyExc.blenderAI (PlanningError msg))) :
    (generate_simulation env ar er N).result.success = false
    ∧ (generate_simulation env ar er N).result.errors = [msg]
    ∧ (generate_simulation env ar er N).progress = prog1
    ∧ (generate_simulation env ar er N).qualityCalls = 0
    ∧ (generate_simulation env ar er N).fixCalls = 0
    ∧ (generate_simulation env ar er N).events = []
    ∧ (ar = true → (generate_simulation env ar er N).result.warnings =
        ["Retried due to: " ++ msg]) := by
  have heq : generate_simulation env ar er N =
      failTrace ar initResult prog1 0 0 (PyExc.blenderAI (PlanningError msg)) := by
    simp only [generate_simulation, h]
  rw [heq]
  refine ⟨?_, ?_, rfl, rfl, rfl, rfl, ?_⟩
  · show (handleExc ar initResult (PyExc.blenderAI (PlanningError msg))).success = false
    rw [handleExc_success]
    rfl
  · show (handleExc ar initResult (PyExc.blenderAI (PlanningError msg))).errors = [msg]
    rw [handleExc_errors_blenderAI]
    rfl
  · intro har
    subst har
    show (handleExc true initResult (PyExc.blenderAI (PlanningError msg))).warnings = _
    simp [handleExc, PlanningError, initResult]

/-- The total-time formula asserted by claim C5, written from the spec's words
for comparison with the code: the per-stage times of the stages that produced
the final artifact, where an accepted refinement iteration's stage times
replace the main-pass times of the four stages it re-ran (the last accepted
iteration's index is `acceptCount` of the run's events, accepted iterations
forming an initial segment of the loop). -/
def spec_total_time (env : RunEnv) (t : RunTrace) : ℚ :=
  if acceptCount t.events = 0 then
    env.plannerTime + env.physicsTime + env.codegenTime + env.synValTime +
      env.executeTime + env.qualityTime
  else
    env.plannerTime + env.physicsTime +
      (env.iters (acceptCount t.events)).codegenTime +
      (env.iters (acceptCount t.events)).synValTime +
      (env.iters (acceptCount t.events)).executeTime +
      (env.iters (acceptCount t.events)).qualityTime

/-! ## Concrete runs used by counterexamples and witnesses -/

/-- A high quality assessment (score 0.95, everything present). -/
def qmHigh : QualityMetrics :=
  { quality_score := 95/100, object_count_correct := true, has_physics_setup := true
    has_camera := true, has_lighting := true, issues := [] }

/-- A low quality assessment (score 0.5, everything present, no issues). -/
def qmLow : QualityMetrics :=
  { quality_score := 1/2, object_count_correct := true, has_physics_setup := true
    has_camera := true, has_lighting := true, issues := [] }

/-- Main-pass execution result. -/
def execMain : ExecutionResult :=
  { success := true, blend_file_path := "/tmp/a.blend", stdout := "", stderr := ""
    execution_time_seconds := 1, frame_count := 100 }

/-- Refined-pass execution result (different artifact path). -/
def execRefined : ExecutionResult :=
  { success := true, blend_file_path := "/tmp/b.blend", stdout := "", stderr := ""
    execution_time_seconds := 1, frame_count := 100 }

/-- A valid syntax-validation result. -/
def vOK : ValidationResult := { is_valid := true, errors := [], warnings := [] }

/-- An invalid syntax-validation result. -/
def vBad : ValidationResult :=
  { is_valid := false, errors := ["Missing required import: bpy"], warnings := [] }

/-- A refinement iteration in which every stage succeeds, the reassessed
quality is 0.95, and each re-run stage takes 2 seconds. -/
def iterEnvA : IterEnv :=
  { refineOut := Except.ok ⟨1⟩, codegenOut := Except.ok ⟨1⟩
    synValOut := Except.ok vOK
    executeOut := Except.ok execRefined
    qualityOut := Except.ok qmHigh
    codegenTime := 2, synValTime := 2, executeTime := 2, qualityTime := 2 }

/-- A run whose main pass succeeds with quality 0.5 (each stage taking 1
second) and whose first refinement iteration is accepted with quality 0.95. -/
def envRefine : RunEnv :=
  { plannerOut := Except.ok ⟨0⟩, physicsOut := Except.ok ⟨0⟩
    codegenOut := Except.ok ⟨0⟩
    synValOut := Except.ok vOK
    fixOut := Except.ok (⟨0⟩, vOK)
    executeOut := Except.ok execMain
    qualityOut := Except.ok qmLow
    iters := fun _ => iterEnvA
    plannerTime := 1, physicsTime := 1, codegenTime := 1
    synValTime := 1, executeTime := 1, qualityTime := 1 }

/-- A run whose planner raises a `PlanningError`. -/
def envFail : RunEnv :=
  { envRefine with
      plannerOut := Except.error (PyExc.blenderAI (PlanningError "boom")) }

/-- A run whose syntax validation reports invalid code and whose single
auto-fix attempt produces valid code; the reassessed quality is high enough
that no refinement happens. -/
def envFix : RunEnv :=
  { envRefine with
      synValOut := Except.ok vBad
      fixOut := Except.ok (⟨1⟩, vOK)
      qualityOut := Except.ok qmHigh }

/-- An executor environment whose filesystem writes succeed and whose
subprocess call exceeds the timeout. -/
def execEnvTimeout : ExecEnv :=
  { mkstempOk := true, mkstempErr := "", tempWriteOk := true, tempWriteErr := ""
    debugWriteOk := true, debugWriteErr := ""
    runOutcome := RunOutcome.timedOut, outputExists := true
    elapsed := 1, extractedFrames := 0 }

/-- An executor environment whose filesystem writes succeed and whose
subprocess completes successfully. -/
def execEnvOk : ExecEnv :=
  { mkstempOk := true, mkstempErr := "", tempWriteOk := true, tempWriteErr := ""
    debugWriteOk := true, debugWriteErr := ""
    runOutcome := RunOutcome.completed "done" "" 0
    outputExists := true, elapsed := 2, extractedFrames := 5 }

/-- An executor environment in which the pre-try debug-script copy
(executor.py line 97) fails with a raw OSError; the subprocess itself would
have succeeded. -/
def execEnvDebugFail : ExecEnv :=
  { mkstempOk := true, mkstempErr := "", tempWriteOk := true, tempWriteErr := ""
    debugWriteOk := false, debugWriteErr := "No space left on device"
    runOutcome := RunOutcome.completed "done" "" 0
    outputExists := true, elapsed := 1, extractedFrames := 0 }

/-- Counterexample to claim C5 as stated: in the concrete successful run
`envRefine` with one accepted refinement iteration, the result's
`total_time_seconds` is 6 (the sum of the six main-pass stage times of 1
second each), while the spec's formula — with the accepted iteration's stage
times (2 seconds each) replacing the four superseded main-pass times — yields
10; the accepted iteration's times are never swapped in. -/
theorem C5_counterexample :
    (generate_simulation envRefine true true 2).result.success = true
    ∧ (generate_simulation envRefine true true 2).result.total_time_seconds = 6
    ∧ spec_total_time envRefine (generate_simulation envRefine true true 2) = 10
    ∧ ¬ ((generate_simulation envRefine true true 2).result.total_time_seconds =
        spec_total_time envRefine (generate_simulation envRefine true true 2)) := by
  have hgs : (generate_simulation envRefine true true 2).events =
      [RefEvent.accept qmHigh "/tmp/b.blend" (1/2)] ∧
      (generate_simulation envRefine true true 2).result.success = true ∧
      (generate_simulation envRefine true true 2).result.total_time_seconds = 6 := by
    refine ⟨?_, ?_, ?_⟩ <;>
      norm_num [generate_simulation, refineLoop, iterBody, should_refine, fixStep,
        successTrace, mainLoopInit, res6, res5, res4, res3, res2, res1, initResult,
        failTrace, envRefine, iterEnvA, qmLow, qmHigh, execMain, execRefined, vOK]
  obtain ⟨hev, hsucc, htot⟩ := hgs
  have hspec : spec_total_time envRefine (generate_simulation envRefine true true 2) = 10 := by
    rw [spec_total_time, hev]
    norm_num [acceptCount, isAccept, envRefine, iterEnvA]
  refine ⟨hsucc, htot, hspec, ?_⟩
  rw [htot, hspec]
  norm_num

/-! ## Witnesses -/

/-- Witness for C1: in the run `envRefine`, the last recorded event is the
acceptance of the 0.95-quality iteration, and the theorem yields that its
artifact and metrics became the final baseline. -/
theorem C1_witness :
    (generate_simulation envRefine true true 2).result.quality_metrics = some qmHigh ∧
    (generate_simulation envRefine true true 2).result.blend_file = some "/tmp/b.blend" :=
  (C1_refinement_acceptance envRefine true true 2).2.2.2.2 qmHigh "/tmp/b.blend" (1/2)
    (by norm_num [generate_simulation, refineLoop, iterBody, should_refine, fixStep,
      successTrace, mainLoopInit, res6, res5, res4, res3, res2, res1, initResult,
      envRefine, iterEnvA, qmLow, qmHigh, execMain, execRefined, vOK])

/-- Witness for C2: the run `envFail` raises a `PlanningError` and the theorem
yields a non-success result whose errors list is exactly the message. -/
theorem C2_witness :
    (generate_simulation envFail true false 1).result.success = false ∧
    (generate_simulation envFail true false 1).result.errors =
      [(PlanningError "boom").message] :=
  C2_taxonomy_errors_caught envFail true false 1 (PlanningError "boom")
    (by norm_num [generate_simulation, failTrace, envFail, envRefine])

/-- Witness for C3: a 0.95-score assessment meets the 0.8 threshold and rule 1
fires. -/
theorem C3_witness :
    should_refine qmHigh ((8:ℚ)/10) = (false, "Quality already meets threshold") :=
  (C3_should_refine_first_match qmHigh ((8:ℚ)/10)).1 (by norm_num [qmHigh])

/-- Witness for C4: in the run `envRefine` the accepted iteration reaches the
0.9 bound, and the theorem yields that it is the last iteration entered. -/
theorem C4_witness : 0 + 1 = (generate_simulation envRefine true true 2).events.length :=
  (C4_refinement_bounded envRefine true true 2).2.2 0 qmHigh "/tmp/b.blend" (1/2)
    (by norm_num [generate_simulation, refineLoop, iterBody, should_refine, fixStep,
      successTrace, mainLoopInit, res6, res5, res4, res3, res2, res1, initResult,
      envRefine, iterEnvA, qmLow, qmHigh, execMain, execRefined, vOK])
    (by norm_num [qmHigh])

/-- Witness for the amended C5 on the successful run `envRefine`. -/
theorem C5_witness :
    (generate_simulation envRefine true true 2).result.agent_times =
      mainAgentTimes envRefine ∧
    (generate_simulation envRefine true true 2).result.total_time_seconds =
      envRefine.plannerTime + envRefine.physicsTime + envRefine.codegenTime +
      envRefine.synValTime + envRefine.executeTime + envRefine.qualityTime :=
  C5_total_time_initial_pass envRefine true true 2
    (by norm_num [generate_simulation, refineLoop, iterBody, should_refine, fixStep,
      successTrace, mainLoopInit, res6, res5, res4, res3, res2, res1, initResult,
      envRefine, iterEnvA, qmLow, qmHigh, execMain, execRefined, vOK])

/-- Witness for C6: the successful run `envRefine` ends with progress 1.0. -/
theorem C6_witness :
    (generate_simulation envRefine true true 2).progress.getLast? = some 1 :=
  (C6_progress_monotone envRefine true true 2).2.mpr
    (by norm_num [generate_simulation, refineLoop, iterBody, should_refine, fixStep,
      successTrace, mainLoopInit, res6, res5, res4, res3, res2, res1, initResult,
      envRefine, iterEnvA, qmLow, qmHigh, execMain, execRefined, vOK])

/-- Witness for C7: in the run `envFix` whose syntax validation fails, exactly
one auto-fix call is made. -/
theorem C7_witness : (generate_simulation envFix true false 1).fixCalls = 1 :=
  (C7_single_autofix envFix true false 1 ⟨0⟩ ⟨0⟩ ⟨0⟩ vBad rfl rfl rfl rfl rfl).1

/-- Witness for C8: a concrete timed-out execution kills the subprocess and
increments the error counter. -/
theorem C8_witness :
    (executor_execute 600 "blender" "/tmp/out.blend" execEnvTimeout).2 = true ∧
    (agent_run "ExecutorAgent" { execution_count := 0, total_time := 0, error_count := 0 } 1
      (executor_execute 600 "blender" "/tmp/out.blend" execEnvTimeout).1).2.error_count =
      0 + 1 := by
  have h := C8_timeout_raises_and_counts 600 "blender" "/tmp/out.blend" execEnvTimeout
    { execution_count := 0, total_time := 0, error_count := 0 } 1 rfl rfl rfl rfl
  exact ⟨h.1, h.2.2.2⟩

/-- Witness for the amended C9: the concrete run `envFail` terminates without
any later stage and records the retry warning without retrying. -/
theorem C9_witness :
    (generate_simulation envFail true false 1).qualityCalls = 0 ∧
    (generate_simulation envFail true false 1).result.warnings =
      ["Retried due to: " ++ "boom"] := by
  have h := C9_planning_error_terminates envFail true false 1 "boom" rfl
  exact ⟨h.2.2.2.1, h.2.2.2.2.2.2 rfl⟩

/-- The `ExecutionResult` of the concrete successful execution `execEnvOk`. -/
def execResOk : ExecutionResult :=
  { success := true, blend_file_path := "/tmp/out.blend", stdout := "done", stderr := ""
    execution_time_seconds := 2, frame_count := 5 }

/-- Counterexample to claim C10 as stated: with the debug-script copy of
executor.py line 97 failing (an operation that runs before the `try` block
whose handler wraps exceptions into `ExecutionError`), `execute` raises a raw
OSError (`PyExc.other`, by construction not a `PyExc.blenderAI`), so it
neither returns a successful `ExecutionResult` nor raises an `ExecutionError`
or `TimeoutError` — the claim's enumeration of outcomes is incomplete. -/
theorem C10_counterexample :
    ¬ ((∃ r, (executor_execute 600 "blender" "/tmp/out.blend" execEnvDebugFail).1 =
          Except.ok r ∧ r.success = true)
      ∨ (∃ e, (executor_execute 600 "blender" "/tmp/out.blend" execEnvDebugFail).1 =
          Except.error (PyExc.blenderAI e)
          ∧ (e.cls = ErrClass.execution ∨ e.cls = ErrClass.timeoutErr))) := by
  have h : (executor_execute 600 "blender" "/tmp/out.blend" execEnvDebugFail).1 =
      Except.error (PyExc.other "No space left on device") := by
    simp [executor_execute, write_temp_script, execEnvDebugFail]
  intro hcon
  rcases hcon with ⟨r, hr, _⟩ | ⟨e, he, _⟩
  · rw [h] at hr
    cases hr
  · rw [h] at he
    simp at he

/-- Witness for the amended C10: a concrete successful execution returns
`success = true`. -/
theorem C10_witness : execResOk.success = true :=
  (C10_executor_never_fails_silently 600 "blender" "/tmp/out.blend" execEnvOk).1 execResOk
    (by norm_num [executor_execute, write_temp_script, run_blender, execEnvOk, execResOk])

end BlenderAI
